import Mathlib

/-!
Shallow embedding of the OAuth 2.0 PKCE module (`src-tauri/src/oauth.rs`) of
the Pedaru application, with theorems settling the specification claims.

Modelling conventions:
* Machine integers (`i64`, `u8`, `u32`) are `Int`/`Nat` with explicit `% 2^w`
  where overflow matters.
* The singleton database row `google_auth` (id = 1) is an `Option GoogleAuthRow`
  (`none` = no row yet).
* The wall clock (`SystemTime::now` as Unix seconds) is passed explicitly as a
  `now : Int` parameter, bound at the moment of the modelled call.
* Outbound HTTPS calls to the token endpoint are modelled by an `HttpResult`
  oracle parameter describing the outcome the network would produce.
* Randomness (`rand::thread_rng`) is passed as an explicit byte source.
-/

namespace Pedaru

/-! ## URL-safe, padding-free Base64 (the `base64` crate's `URL_SAFE_NO_PAD`) -/

/-- The URL-safe Base64 alphabet used by `URL_SAFE_NO_PAD`. -/
def b64urlAlphabet : List Char :=
  ("ABCDEFGHIJKLMNOPQRSTUVWXYZabcdefghijklmnopqrstuvwxyz0123456789-_").toList

/-- Total list indexing with default 'A' (used only with in-bounds indices). -/
def nthChar : List Char → Nat → Char
  | [], _ => 'A'
  | c :: _, 0 => c
  | _ :: t, n + 1 => nthChar t n

/-- The alphabet character for a 6-bit value. -/
def b64Char (n : Nat) : Char := nthChar b64urlAlphabet (n % 64)

/-- `URL_SAFE_NO_PAD.encode`: bytes to URL-safe Base64 without padding. -/
def b64urlNoPadEncode : List Nat → List Char
  | [] => []
  | [b1] => [b64Char (b1 / 4), b64Char (b1 % 4 * 16)]
  | [b1, b2] =>
      [b64Char (b1 / 4), b64Char (b1 % 4 * 16 + b2 / 16), b64Char (b2 % 16 * 4)]
  | b1 :: b2 :: b3 :: rest =>
      b64Char (b1 / 4) :: b64Char (b1 % 4 * 16 + b2 / 16) ::
        b64Char (b2 % 16 * 4 + b3 / 64) :: b64Char (b3 % 64) ::
          b64urlNoPadEncode rest

/-! ## SHA-256 (the `sha2` crate), per FIPS 180-4, over byte lists -/

/-- Truncate to a 32-bit word. -/
def w32 (n : Nat) : Nat := n % 4294967296

/-- 32-bit right rotation. -/
def rotr (k n : Nat) : Nat := w32 ((n >>> k) ||| (n <<< (32 - k)))

def bigSigma0 (x : Nat) : Nat := rotr 2 x ^^^ rotr 13 x ^^^ rotr 22 x

def bigSigma1 (x : Nat) : Nat := rotr 6 x ^^^ rotr 11 x ^^^ rotr 25 x

def smallSigma0 (x : Nat) : Nat := rotr 7 x ^^^ rotr 18 x ^^^ (x >>> 3)

def smallSigma1 (x : Nat) : Nat := rotr 17 x ^^^ rotr 19 x ^^^ (x >>> 10)

def chF (x y z : Nat) : Nat := (x &&& y) ^^^ ((x ^^^ 4294967295) &&& z)

def majF (x y z : Nat) : Nat := (x &&& y) ^^^ (x &&& z) ^^^ (y &&& z)

/-- The 64 SHA-256 round constants (FIPS 180-4 §4.2.2, written in
decimal). -/
def sha256K : List Nat :=
  [1116352408, 1899447441, 3049323471, 3921009573, 961987163,
   1508970993, 2453635748, 2870763221, 3624381080, 310598401,
   607225278, 1426881987, 1925078388, 2162078206, 2614888103,
   3248222580, 3835390401, 4022224774, 264347078, 604807628,
   770255983, 1249150122, 1555081692, 1996064986, 2554220882,
   2821834349, 2952996808, 3210313671, 3336571891, 3584528711,
   113926993, 338241895, 666307205, 773529912, 1294757372,
   1396182291, 1695183700, 1986661051, 2177026350, 2456956037,
   2730485921, 2820302411, 3259730800, 3345764771, 3516065817,
   3600352804, 4094571909, 275423344, 430227734, 506948616,
   659060556, 883997877, 958139571, 1322822218, 1537002063,
   1747873779, 1955562222, 2024104815, 2227730452, 2361852424,
   2428436474, 2756734187, 3204031479, 3329325298]

/-- The SHA-256 initial hash value (FIPS 180-4 §5.3.3, in decimal). -/
def sha256H0 : List Nat :=
  [1779033703, 3144134277, 1013904242, 2773480762,
   1359893119, 2600822924, 528734635, 1541459225]

/-- Big-endian bytes (most significant first) of a value, `k` bytes wide. -/
def natToBytesBE (k n : Nat) : List Nat :=
  match k with
  | 0 => []
  | k + 1 => (n >>> (8 * k)) % 256 :: natToBytesBE k n

/-- FIPS 180-4 padding: append 0x80, zeros to 56 mod 64, then the 64-bit
bit length, big-endian. -/
def sha256Pad (msg : List Nat) : List Nat :=
  let padZeros := (119 - msg.length % 64) % 64
  msg ++ [0x80] ++ List.replicate padZeros 0 ++ natToBytesBE 8 (8 * msg.length)

/-- Big-endian 32-bit words from bytes (input length a multiple of 4). -/
def bytesToWords : List Nat → List Nat
  | b1 :: b2 :: b3 :: b4 :: rest =>
      (b1 * 16777216 + b2 * 65536 + b3 * 256 + b4) :: bytesToWords rest
  | _ => []

/-- One message-schedule extension step: append `W[t]` for the next `t`. -/
def scheduleStep (w : List Nat) : List Nat :=
  let n := w.length
  w ++ [w32 (smallSigma1 (w.getD (n - 2) 0) + w.getD (n - 7) 0 +
             smallSigma0 (w.getD (n - 15) 0) + w.getD (n - 16) 0)]

/-- Extend the 16 block words to the 64-entry message schedule. -/
def sha256Schedule (w16 : List Nat) : List Nat :=
  (List.range 48).foldl (fun w _ => scheduleStep w) w16

/-- One compression round on the working state `[a,b,c,d,e,f,g,h]`. -/
def roundStep (s : List Nat) (kw : Nat × Nat) : List Nat :=
  match s with
  | [a, b, c, d, e, f, g, h] =>
      let t1 := w32 (h + bigSigma1 e + chF e f g + kw.1 + kw.2)
      let t2 := w32 (bigSigma0 a + majF a b c)
      [w32 (t1 + t2), a, b, c, w32 (d + t1), e, f, g]
  | _ => s

/-- Compress one 64-byte block into the running hash value. -/
def sha256Compress (h : List Nat) (block : List Nat) : List Nat :=
  let w := sha256Schedule (bytesToWords block)
  let s := (sha256K.zip w).foldl roundStep h
  (h.zip s).map (fun p => w32 (p.1 + p.2))

/-- Fold the compression function over all 64-byte blocks. The fuel is any
bound on the block count (each step strictly shortens a nonempty message,
so the message's length is enough). -/
def sha256Blocks (fuel : Nat) (h : List Nat) (msg : List Nat) : List Nat :=
  match fuel, msg with
  | _, [] => h
  | 0, _ => h
  | fuel + 1, msg =>
      sha256Blocks fuel (sha256Compress h (msg.take 64)) (msg.drop 64)

/-- SHA-256 digest (32 bytes) of a byte list. -/
def sha256 (msg : List Nat) : List Nat :=
  let padded := sha256Pad msg
  ((sha256Blocks padded.length sha256H0 padded).map (natToBytesBE 4)).flatten

/-! ## Data model (`oauth.rs` structs and the `google_auth` table row) -/

structure OAuthCredentials where
  client_id : String
  client_secret : String
  deriving DecidableEq, Repr

/-- Parsed JSON body of a successful token-endpoint response. -/
structure TokenResponse where
  access_token : String
  refresh_token : Option String
  expires_in : Option Int
  token_type : String
  scope : Option String
  deriving DecidableEq, Repr

/-- The singleton `google_auth` database row (id = 1). `created_at` and
`updated_at` are the audit columns written by the SQL statements. -/
structure GoogleAuthRow where
  client_id : String
  client_secret : String
  access_token : Option String
  refresh_token : Option String
  token_expiry : Option Int
  created_at : Int
  updated_at : Int
  deriving DecidableEq, Repr

structure AuthStatus where
  authenticated : Bool
  configured : Bool
  deriving DecidableEq, Repr

/-- In-memory state of one authorization attempt (`OAUTH_FLOW_STATE`). -/
structure OAuthFlowState where
  code_verifier : String
  state : String
  deriving DecidableEq, Repr

/-- Error taxonomy of `PedaruError`/`OAuthError` as far as this module
produces them (`GoogleDriveError::NotAuthenticated` folded in as
`notAuthenticated`). -/
inductive PedaruErr where
  | notConfigured
  | authorizationFailed (msg : String)
  | tokenExchangeFailed (msg : String)
  | tokenRefreshFailed (msg : String)
  | httpRequestFailed (msg : String)
  | invalidResponse (msg : String)
  | notAuthenticated
  deriving DecidableEq, Repr

/-- Oracle for the outcome of one outbound token-endpoint HTTP call:
transport failure, non-success status (with body), success with a body that
fails JSON parsing, or success with a parsed `TokenResponse`. -/
inductive HttpResult where
  | requestFailed (msg : String)
  | httpError (body : String)
  | invalidJson (msg : String)
  | success (tr : TokenResponse)
  deriving DecidableEq, Repr

/-! ## Crypto helpers of `oauth.rs` -/

/-- `generate_code_verifier`: 32 bytes from `thread_rng`, encoded with
`URL_SAFE_NO_PAD`. The random source is the explicit byte stream `rng`
(each draw reduced mod 256, as `rng.gen::<u8>()` yields a byte). -/
def generate_code_verifier (rng : Nat → Nat) : List Char :=
  b64urlNoPadEncode ((List.range 32).map (fun i => rng i % 256))

/-- `generate_code_challenge`: SHA-256 over the verifier's bytes
(`verifier.as_bytes()`), then `URL_SAFE_NO_PAD` encoding. The verifier is
given as its byte list. -/
def generate_code_challenge (verifierBytes : List Nat) : List Char :=
  b64urlNoPadEncode (sha256 verifierBytes)

/-! ## Credential store operations (SQL over the singleton row) -/

/-- `save_credentials`: `INSERT ... ON CONFLICT(id) DO UPDATE SET client_id,
client_secret, updated_at`. A fresh row has NULL token columns. -/
def save_credentials (db : Option GoogleAuthRow) (now : Int)
    (credentials : OAuthCredentials) : Option GoogleAuthRow :=
  match db with
  | none =>
      some ⟨credentials.client_id, credentials.client_secret, none, none, none,
            now, now⟩
  | some row =>
      some { row with
        client_id := credentials.client_id,
        client_secret := credentials.client_secret,
        updated_at := now }

/-- `load_credentials`: projection of the row's credential columns. -/
def load_credentials (db : Option GoogleAuthRow) : Option OAuthCredentials :=
  db.map (fun row => ⟨row.client_id, row.client_secret⟩)

/-- `save_tokens`: `UPDATE google_auth SET access_token = ?1,
refresh_token = COALESCE(?2, refresh_token), token_expiry = ?3,
updated_at = ?4 WHERE id = 1`, with `?3 = expires_in.map (now + _)`.
No row means the UPDATE matches nothing and succeeds without effect. -/
def save_tokens (db : Option GoogleAuthRow) (now : Int) (access_token : String)
    (refresh_token : Option String) (expires_in : Option Int) :
    Option GoogleAuthRow :=
  match db with
  | none => none
  | some row =>
      some { row with
        access_token := some access_token,
        refresh_token :=
          match refresh_token with
          | some r => some r
          | none => row.refresh_token,
        token_expiry := expires_in.map (fun e => now + e),
        updated_at := now }

/-- `get_auth_status`: `configured` iff the row exists, `authenticated` iff
`access_token` is non-NULL. Pure projection of the stored row. -/
def get_auth_status (db : Option GoogleAuthRow) : AuthStatus :=
  match db with
  | some row => { authenticated := row.access_token.isSome, configured := true }
  | none => { authenticated := false, configured := false }

/-- Spec-side predicate (from the spec's words, for comparison): the store
holds a token set whose `access_token` is a non-empty string. -/
def hasNonEmptyAccessToken (db : Option GoogleAuthRow) : Bool :=
  match db with
  | some row =>
      match row.access_token with
      | some t => !(t == "")
      | none => false
  | none => false

/-! ## Token exchange and refresh -/

/-- `exchange_code_for_tokens`: credentials check, flow-state check, token
POST (oracle), persist via `save_tokens`, then clear the flow state.
Returns the new row, the new flow state and the call's result. -/
def exchange_code_for_tokens (db : Option GoogleAuthRow)
    (flow : Option OAuthFlowState) (now : Int) (http : HttpResult)
    (_code : String) :
    Option GoogleAuthRow × Option OAuthFlowState × Except PedaruErr Unit :=
  match load_credentials db with
  | none => (db, flow, Except.error PedaruErr.notConfigured)
  | some _credentials =>
    match flow with
    | none =>
        (db, flow, Except.error (PedaruErr.authorizationFailed ("No flow state")))
    | some _fs =>
      match http with
      | HttpResult.requestFailed m =>
          (db, flow, Except.error (PedaruErr.httpRequestFailed m))
      | HttpResult.httpError body =>
          (db, flow, Except.error (PedaruErr.tokenExchangeFailed body))
      | HttpResult.invalidJson m =>
          (db, flow, Except.error (PedaruErr.invalidResponse m))
      | HttpResult.success tr =>
          (save_tokens db now tr.access_token tr.refresh_token tr.expires_in,
           none, Except.ok ())

/-- `refresh_access_token`: requires a stored row and refresh token, then a
refresh POST (oracle); on success persists via `save_tokens` and returns the
new access token. -/
def refresh_access_token (db : Option GoogleAuthRow) (now : Int)
    (http : HttpResult) : Option GoogleAuthRow × Except PedaruErr String :=
  match db with
  | none => (db, Except.error PedaruErr.notConfigured)
  | some row =>
    match row.refresh_token with
    | none => (db, Except.error (PedaruErr.tokenRefreshFailed ("No refresh token")))
    | some _rt =>
      match http with
      | HttpResult.requestFailed m =>
          (db, Except.error (PedaruErr.httpRequestFailed m))
      | HttpResult.httpError body =>
          (db, Except.error (PedaruErr.tokenRefreshFailed body))
      | HttpResult.invalidJson m =>
          (db, Except.error (PedaruErr.invalidResponse m))
      | HttpResult.success tr =>
          (save_tokens db now tr.access_token tr.refresh_token tr.expires_in,
           Except.ok tr.access_token)

/-- Decidable equality for `Except`, needed to evaluate results. -/
def exceptDecEq {ε α : Type} [DecidableEq ε] [DecidableEq α] :
    (x y : Except ε α) → Decidable (x = y)
  | Except.ok a, Except.ok b =>
      if h : a = b then Decidable.isTrue (by rw [h])
      else Decidable.isFalse (by intro hh; cases hh; exact h rfl)
  | Except.ok _, Except.error _ => Decidable.isFalse (by intro h; cases h)
  | Except.error _, Except.ok _ => Decidable.isFalse (by intro h; cases h)
  | Except.error e, Except.error f =>
      if h : e = f then Decidable.isTrue (by rw [h])
      else Decidable.isFalse (by intro hh; cases hh; exact h rfl)

instance {ε α : Type} [DecidableEq ε] [DecidableEq α] :
    DecidableEq (Except ε α) := exceptDecEq

/-- Result of `get_valid_access_token`: final row, returned value, and
whether the refresh path was taken. -/
structure TokenFetchResult where
  db : Option GoogleAuthRow
  result : Except PedaruErr String
  refreshed : Bool
  deriving DecidableEq, Repr

/-- `get_valid_access_token`: load the row, require an access token, and
refresh iff `token_expiry` is present and `now >= expiry - 300`. -/
def get_valid_access_token (db : Option GoogleAuthRow) (now : Int)
    (http : HttpResult) : TokenFetchResult :=
  match db with
  | none => ⟨db, Except.error PedaruErr.notConfigured, false⟩
  | some row =>
    match row.access_token with
    | none => ⟨db, Except.error PedaruErr.notAuthenticated, false⟩
    | some tok =>
      match row.token_expiry with
      | some expiry =>
          if now ≥ expiry - 300 then
            let r := refresh_access_token db now http
            ⟨r.1, r.2, true⟩
          else ⟨db, Except.ok tok, false⟩
      | none => ⟨db, Except.ok tok, false⟩

/-! ## Callback listener (`run_callback_server`) -/

/-- Hex digit value, as `urlencoding::decode` reads `%xy` escapes. -/
def hexVal (c : Char) : Option Nat :=
  if '0' ≤ c ∧ c ≤ '9' then some (c.toNat - 48)
  else if 'a' ≤ c ∧ c ≤ 'f' then some (c.toNat - 87)
  else if 'A' ≤ c ∧ c ≤ 'F' then some (c.toNat - 55)
  else none

/-- Percent-decoding of `urlencoding::decode` (ASCII fragment: a decoded
byte is taken as the character of that code; malformed escapes are kept
literally; `+` is not treated specially by this crate). -/
def percentDecode : List Char → List Char
  | [] => []
  | ['%'] => ['%']
  | ['%', a] => ['%', a]
  | '%' :: a :: b :: rest =>
      match hexVal a, hexVal b with
      | some x, some y => Char.ofNat (16 * x + y) :: percentDecode rest
      | _, _ => '%' :: a :: b :: percentDecode rest
  | c :: rest => c :: percentDecode rest

def percentDecodeStr (s : String) : String := String.mk (percentDecode s.toList)

/-- Splitting on a separator character (Rust's `str::split`), accumulator
form; the empty string yields one empty piece, as in Rust. -/
def splitOnCharAux (sep : Char) : List Char → List Char → List (List Char)
  | [], acc => [acc.reverse]
  | c :: rest, acc =>
      if c = sep then acc.reverse :: splitOnCharAux sep rest []
      else splitOnCharAux sep rest (c :: acc)

def splitChar (sep : Char) (s : String) : List String :=
  (splitOnCharAux sep s.toList []).map String.mk

/-- Rejoin pieces with the separator (to recover everything after the first
occurrence, as `splitn(2, _)` and `find('?')` do). -/
def joinChar (sep : Char) : List String → String
  | [] => ""
  | [x] => x
  | x :: y :: rest => x ++ String.mk [sep] ++ joinChar sep (y :: rest)

def isPrefixList : List Char → List Char → Bool
  | [], _ => true
  | _ :: _, [] => false
  | p :: ps, c :: cs => p == c && isPrefixList ps cs

/-- Rust's `str::starts_with`. -/
def strIsPrefixOf (p s : String) : Bool := isPrefixList p.toList s.toList

/-- `p.splitn(2, '=')` turned into a key/value pair; pieces without `=` are
dropped by the `filter_map`. -/
def splitn2Eq (p : String) : Option (String × String) :=
  match splitChar '=' p with
  | [] => none
  | [_] => none
  | k :: rest => some (k, joinChar '=' rest)

/-- `query.split('&').filter_map(...)`: the raw key/value pairs. -/
def parseParams (q : String) : List (String × String) :=
  (splitChar '&' q).filterMap splitn2Eq

/-- `HashMap` lookup after `collect`: the last pair with the key wins. -/
def getParam (ps : List (String × String)) (k : String) : Option String :=
  ((ps.filter (fun p => p.1 == k)).getLast?).map (fun p => p.2)

/-- `url.find('?')`: the query part of the URL, when a `?` occurs. -/
def callbackQuery (url : String) : Option String :=
  match splitChar '?' url with
  | [] => none
  | [_] => none
  | _ :: rest => some (joinChar '?' rest)

/-- The percent-decoded `state` parameter, as the listener computes it. -/
def receivedStateOf (params : List (String × String)) : Option String :=
  (getParam params ("state")).map percentDecodeStr

/-- The percent-decoded `state` parameter of a whole callback URL (`none`
when the URL has no query or no `state` parameter). -/
def urlReceivedState (url : String) : Option String :=
  (callbackQuery url).bind (fun q => receivedStateOf (parseParams q))

/-- Whether the callback URL carries a `state` query parameter at all. -/
def urlHasStateParam (url : String) : Bool :=
  match callbackQuery url with
  | some q => (getParam (parseParams q) ("state")).isSome
  | none => false

structure CallbackRequest where
  url : String
  deriving DecidableEq, Repr

/-- The HTML pages the listener can respond with. -/
inductive CallbackResponse where
  | successPage
  | exchangeFailedPage
  | stateMismatchPage
  | providerErrorPage (error : String)
  deriving DecidableEq, Repr

/-- The mutable state the listener can reach: the database row and the
shared `OAUTH_FLOW_STATE` slot. -/
structure ServerState where
  db : Option GoogleAuthRow
  flow : Option OAuthFlowState
  deriving DecidableEq, Repr

/-- Outcome of the loop body for one received request. -/
structure HandleResult where
  state : ServerState
  response : Option CallbackResponse
  breaksLoop : Bool
  exchangeInvoked : Bool
  deriving DecidableEq, Repr

/-- One iteration of the listener loop body of `run_callback_server`. -/
def handleRequest (st : ServerState) (now : Int) (http : HttpResult)
    (req : CallbackRequest) : HandleResult :=
  if strIsPrefixOf ("/callback") req.url then
    match callbackQuery req.url with
    | none => ⟨st, none, true, false⟩
    | some q =>
      let params := parseParams q
      match getParam params ("code") with
      | some rawCode =>
          let code := percentDecodeStr rawCode
          let expected := st.flow.map (fun s => s.state)
          let received := receivedStateOf params
          if expected = received then
            let r := exchange_code_for_tokens st.db st.flow now http code
            match r.2.2 with
            | Except.ok _ =>
                ⟨⟨r.1, r.2.1⟩, some CallbackResponse.successPage, true, true⟩
            | Except.error _ =>
                ⟨⟨r.1, r.2.1⟩, some CallbackResponse.exchangeFailedPage, true, true⟩
          else ⟨st, some CallbackResponse.stateMismatchPage, true, false⟩
      | none =>
        match getParam params ("error") with
        | some e => ⟨st, some (CallbackResponse.providerErrorPage e), true, false⟩
        | none => ⟨st, none, true, false⟩
  else ⟨st, none, false, false⟩

/-- The listener loop over the requests received before the 5-minute
timeout elapses; the input list ends when the timeout ends it. Returns the
final state, the responses actually sent, and how many times the exchange
step was invoked. -/
def run_callback_server (now : Int) (http : HttpResult) :
    ServerState → List CallbackRequest →
    ServerState × List CallbackResponse × Nat
  | st, [] => (st, [], 0)
  | st, r :: rs =>
    let h := handleRequest st now http r
    if h.breaksLoop then
      (h.state, h.response.toList, if h.exchangeInvoked then 1 else 0)
    else run_callback_server now http h.state rs

/-! ## Helper lemmas on the Base64 encoder -/

theorem nthChar_mem (l : List Char) (i : Nat) (h : i < l.length) :
    nthChar l i ∈ l := by
  induction l generalizing i with
  | nil => simp at h
  | cons c t ih =>
    cases i with
    | zero => exact List.mem_cons_self _ _
    | succ j =>
      exact List.mem_cons_of_mem _ (ih j (by simpa using Nat.lt_of_succ_lt_succ h))

theorem b64Char_mem (n : Nat) : b64Char n ∈ b64urlAlphabet := by
  unfold b64Char
  exact nthChar_mem _ _ (by
    have h : n % 64 < 64 := Nat.mod_lt _ (by norm_num)
    calc n % 64 < 64 := h
      _ ≤ b64urlAlphabet.length := by decide)

theorem b64urlAlphabet_ok :
    ∀ c ∈ b64urlAlphabet, c ≠ '+' ∧ c ≠ '/' ∧ c ≠ '=' := by decide

theorem b64_length (l : List Nat) :
    (b64urlNoPadEncode l).length = (4 * l.length + 2) / 3 := by
  induction l using b64urlNoPadEncode.induct with
  | case1 => simp [b64urlNoPadEncode]
  | case2 b1 => simp [b64urlNoPadEncode]
  | case3 b1 b2 => simp [b64urlNoPadEncode]
  | case4 b1 b2 b3 rest ih =>
    simp only [b64urlNoPadEncode, List.length_cons, ih]
    omega

theorem b64_mem (l : List Nat) :
    ∀ c ∈ b64urlNoPadEncode l, c ∈ b64urlAlphabet := by
  induction l using b64urlNoPadEncode.induct with
  | case1 => intro c hc; simp [b64urlNoPadEncode] at hc
  | case2 b1 =>
    intro c hc
    simp only [b64urlNoPadEncode, List.mem_cons, List.not_mem_nil, or_false] at hc
    rcases hc with rfl | rfl <;> exact b64Char_mem _
  | case3 b1 b2 =>
    intro c hc
    simp only [b64urlNoPadEncode, List.mem_cons, List.not_mem_nil, or_false] at hc
    rcases hc with rfl | rfl | rfl <;> exact b64Char_mem _
  | case4 b1 b2 b3 rest ih =>
    intro c hc
    simp only [b64urlNoPadEncode, List.mem_cons] at hc
    rcases hc with rfl | rfl | rfl | rfl | hc
    · exact b64Char_mem _
    · exact b64Char_mem _
    · exact b64Char_mem _
    · exact b64Char_mem _
    · exact ih c hc

/-! ## Claim C6 -/

/-- C6: every string returned by `generate_code_verifier` has length within
[43, 128] (it is exactly 43 for 32 random bytes) and consists only of
characters of the URL-safe Base64 alphabet, excluding `+`, `/` and `=`,
whatever bytes the random source yields. -/
theorem c6_code_verifier_ok (rng : Nat → Nat) :
    43 ≤ (generate_code_verifier rng).length ∧
    (generate_code_verifier rng).length ≤ 128 ∧
    ∀ c ∈ generate_code_verifier rng, c ≠ '+' ∧ c ≠ '/' ∧ c ≠ '=' := by
  have hlen : (generate_code_verifier rng).length = 43 := by
    unfold generate_code_verifier
    rw [b64_length]
    simp
  refine ⟨by omega, by omega, ?_⟩
  intro c hc
  exact b64urlAlphabet_ok c (b64_mem _ c hc)

/-- Witness for C6: the all-zero random stream, whose verifier is 43 chars
of 'A'; the membership hypothesis is discharged at the character 'A'. -/
theorem c6_code_verifier_ok_witness :
    43 ≤ (generate_code_verifier (fun _ => 0)).length ∧
    (generate_code_verifier (fun _ => 0)).length ≤ 128 ∧
    ('A' ≠ '+' ∧ 'A' ≠ '/' ∧ 'A' ≠ '=') :=
  ⟨(c6_code_verifier_ok (fun _ => 0)).1,
   (c6_code_verifier_ok (fun _ => 0)).2.1,
   (c6_code_verifier_ok (fun _ => 0)).2.2 'A' (by decide)⟩

/-! ## Claim C7 -/

/-- C7: `generate_code_challenge` equals the URL-safe, padding-free Base64
encoding of the SHA-256 digest of the verifier's bytes, and is
deterministic: equal verifiers yield equal challenges. -/
theorem c7_code_challenge_ok (v : List Nat) :
    generate_code_challenge v = b64urlNoPadEncode (sha256 v) ∧
    ∀ w, w = v → generate_code_challenge w = generate_code_challenge v :=
  ⟨rfl, fun _ h => by rw [h]⟩

/-- Witness for C7, at the verifier bytes of "abc" (97, 98, 99). -/
theorem c7_code_challenge_ok_witness :
    generate_code_challenge [97, 98, 99] = b64urlNoPadEncode (sha256 [97, 98, 99]) ∧
    generate_code_challenge [97, 98, 99] = generate_code_challenge [97, 98, 99] :=
  ⟨(c7_code_challenge_ok [97, 98, 99]).1,
   (c7_code_challenge_ok [97, 98, 99]).2 [97, 98, 99] rfl⟩

/-- FIPS 180-4 test vector: the PKCE challenge of the verifier "abc" (the
base64url encoding of SHA-256("abc")), checking the embedded SHA-256. -/
theorem challenge_abc_vector :
    String.mk (generate_code_challenge [97, 98, 99]) =
      "ungWv48Bz-pBQUDeXa4iI7ADYaOWF3qctBD_YfIAFa0" := by decide

/-! ## Claim C2 -/

/-- C2: for every prior stored row, `save_tokens` with
`refresh_token = none` keeps the stored refresh token; with `some x` it
overwrites it to `x`; in both cases the stored access token is replaced
wholesale by the new value. -/
theorem c2_save_tokens_refresh (row : GoogleAuthRow) (now : Int)
    (access_token : String) (refresh_token : Option String)
    (expires_in : Option Int) :
    ((save_tokens (some row) now access_token none expires_in).map
        (fun r => r.refresh_token) = some row.refresh_token) ∧
    (∀ x, (save_tokens (some row) now access_token (some x) expires_in).map
        (fun r => r.refresh_token) = some (some x)) ∧
    ((save_tokens (some row) now access_token refresh_token expires_in).map
        (fun r => r.access_token) = some (some access_token)) := by
  refine ⟨?_, ?_, ?_⟩
  · simp [save_tokens]
  · intro x; simp [save_tokens]
  · cases refresh_token <;> simp [save_tokens]

/-! ## Claim C9 -/

/-- C9: `save_tokens` with `expires_in = some s` stores the absolute expiry
`now + s`, where `now` is the clock read at the moment of this call (the
`now` parameter binds `SystemTime::now()` taken inside `save_tokens`). -/
theorem c9_save_tokens_expiry (row : GoogleAuthRow) (now : Int)
    (access_token : String) (refresh_token : Option String) (s : Int) :
    (save_tokens (some row) now access_token refresh_token (some s)).map
      (fun r => r.token_expiry) = some (some (now + s)) := by
  cases refresh_token <;> simp [save_tokens]

/-! ## Claim C10 -/

/-- C10: `save_credentials` over an existing row updates only `client_id`,
`client_secret` and `updated_at`; `access_token`, `refresh_token`,
`token_expiry` and `created_at` are untouched — reconfiguring credentials
does not log the user out. -/
theorem c10_save_credentials_frame (row : GoogleAuthRow) (now : Int)
    (credentials : OAuthCredentials) :
    save_credentials (some row) now credentials =
      some { row with
        client_id := credentials.client_id,
        client_secret := credentials.client_secret,
        updated_at := now } ∧
    ((save_credentials (some row) now credentials).map
        (fun r => r.access_token) = some row.access_token) ∧
    ((save_credentials (some row) now credentials).map
        (fun r => r.refresh_token) = some row.refresh_token) ∧
    ((save_credentials (some row) now credentials).map
        (fun r => r.token_expiry) = some row.token_expiry) ∧
    ((save_credentials (some row) now credentials).map
        (fun r => r.created_at) = some row.created_at) := by
  refine ⟨rfl, ?_, ?_, ?_, ?_⟩ <;> simp [save_credentials]

/-! ## Claim C8 (corrected) -/

/-- Counterexample to C8 as stated: a row whose stored `access_token` is
`some ""` (present but empty). `get_auth_status` reports
`authenticated = true`, yet no token set with a non-empty `access_token`
exists, so "authenticated = true iff a non-empty access token exists"
fails: the code tests presence (`is_some`), not non-emptiness. -/
theorem c8_counterexample :
    (get_auth_status (some ⟨"cid", "sec", some "", none, none, 0, 0⟩)).authenticated
      = true ∧
    hasNonEmptyAccessToken (some ⟨"cid", "sec", some "", none, none, 0, 0⟩)
      = false := by
  exact ⟨rfl, rfl⟩

/-- C8 (amended): `get_auth_status` reports `configured = true` iff client
credentials exist in the store, and `authenticated = true` iff a stored
`access_token` is present (`is_some` — possibly the empty string). It is a
pure projection of the stored row: its input is the row alone (no network
oracle, no clock) and it returns only an `AuthStatus`, so it can neither
perform I/O nor refresh. -/
theorem c8_auth_status_projection (db : Option GoogleAuthRow) :
    (get_auth_status db).configured = (load_credentials db).isSome ∧
    (get_auth_status db).authenticated =
      ((db.map (fun r => r.access_token.isSome)).getD false) := by
  cases db <;> exact ⟨rfl, rfl⟩

/-! ## Claim C3 -/

/-- C3: with a stored access token, `get_valid_access_token` takes the
refresh path exactly when `token_expiry` is present and
`now ≥ expiry - 300`, and then its row and result are those of
`refresh_access_token`; in particular, when a refresh token is stored and
the refresh call succeeds with `tr`, the returned token is the refreshed
`tr.access_token`. When `now < expiry - 300`, or when `token_expiry` is
absent, it returns the stored token unchanged and does not refresh (its
outcome ignores the network oracle and leaves the row as it was). -/
theorem c3_valid_token_refresh (row : GoogleAuthRow) (tok : String)
    (now : Int) (http : HttpResult)
    (htok : row.access_token = some tok) :
    (∀ e, row.token_expiry = some e → now ≥ e - 300 →
      (get_valid_access_token (some row) now http).refreshed = true ∧
      (get_valid_access_token (some row) now http).db =
        (refresh_access_token (some row) now http).1 ∧
      (get_valid_access_token (some row) now http).result =
        (refresh_access_token (some row) now http).2 ∧
      (∀ rt tr, row.refresh_token = some rt →
        http = HttpResult.success tr →
        (get_valid_access_token (some row) now http).result =
          Except.ok tr.access_token)) ∧
    (∀ e, row.token_expiry = some e → now < e - 300 →
      get_valid_access_token (some row) now http =
        ⟨some row, Except.ok tok, false⟩) ∧
    (row.token_expiry = none →
      get_valid_access_token (some row) now http =
        ⟨some row, Except.ok tok, false⟩) := by
  refine ⟨?_, ?_, ?_⟩
  · intro e he hge
    have hcond : (now ≥ e - 300) = True := eq_true hge
    refine ⟨?_, ?_, ?_, ?_⟩
    · simp [get_valid_access_token, htok, he, hcond]
    · simp [get_valid_access_token, htok, he, hcond]
    · simp [get_valid_access_token, htok, he, hcond]
    · intro rt tr hrt htr
      simp [get_valid_access_token, htok, he, hcond, refresh_access_token, hrt, htr]
  · intro e he hlt
    have hcond : ¬ (now ≥ e - 300) := by omega
    simp [get_valid_access_token, htok, he, hcond]
  · intro hne
    simp [get_valid_access_token, htok, hne]

/-- Witness for C3: the refresh branch at a row expiring at 1000 with
`now = 800` (inside the 300-second buffer) returning the refreshed token
"AT2", and the no-refresh branch at `now = 699` returning the stored
token. -/
theorem c3_valid_token_refresh_witness :
    (get_valid_access_token
        (some ⟨"cid", "sec", some "AT", some "RT", some 1000, 0, 0⟩) 800
        (HttpResult.success ⟨"AT2", none, some 3600, "Bearer", none⟩)).result =
      Except.ok "AT2" ∧
    get_valid_access_token
        (some ⟨"cid", "sec", some "AT", some "RT", some 1000, 0, 0⟩) 699
        (HttpResult.success ⟨"AT2", none, some 3600, "Bearer", none⟩) =
      ⟨some ⟨"cid", "sec", some "AT", some "RT", some 1000, 0, 0⟩,
       Except.ok "AT", false⟩ :=
  ⟨((c3_valid_token_refresh ⟨"cid", "sec", some "AT", some "RT", some 1000, 0, 0⟩
      "AT" 800 (HttpResult.success ⟨"AT2", none, some 3600, "Bearer", none⟩)
      rfl).1 1000 rfl (by norm_num)).2.2.2 "RT"
      ⟨"AT2", none, some 3600, "Bearer", none⟩ rfl rfl,
   (c3_valid_token_refresh ⟨"cid", "sec", some "AT", some "RT", some 1000, 0, 0⟩
      "AT" 699 (HttpResult.success ⟨"AT2", none, some 3600, "Bearer", none⟩)
      rfl).2.1 1000 rfl (by norm_num)⟩

/-! ## Claim C4 (corrected) -/

/-- Counterexample to C4 as stated: with no credentials configured and no
FlowState active, `exchange_code_for_tokens` returns `NotConfigured` (the
credentials check runs first), not `AuthorizationFailed`. -/
theorem c4_counterexample :
    (exchange_code_for_tokens none none 0 (HttpResult.requestFailed ("net"))
        ("c")).2.2 = Except.error PedaruErr.notConfigured ∧
    PedaruErr.notConfigured ≠ PedaruErr.authorizationFailed ("No flow state") := by
  exact ⟨rfl, by decide⟩

/-- C4 (amended): when credentials are configured (a row exists) and no
FlowState is active, `exchange_code_for_tokens` returns
`AuthorizationFailed` (with no credentials it returns `NotConfigured`
first); when it returns success the FlowState has been cleared; when it
returns any error the FlowState is left unchanged. -/
theorem c4_exchange_flow_state (db : Option GoogleAuthRow)
    (flow : Option OAuthFlowState) (now : Int) (http : HttpResult)
    (code : String) :
    ((∃ row, db = some row) → flow = none →
      (exchange_code_for_tokens db flow now http code).2.2 =
        Except.error (PedaruErr.authorizationFailed ("No flow state"))) ∧
    ((exchange_code_for_tokens db flow now http code).2.2 = Except.ok () →
      (exchange_code_for_tokens db flow now http code).2.1 = none) ∧
    (∀ e, (exchange_code_for_tokens db flow now http code).2.2 =
        Except.error e →
      (exchange_code_for_tokens db flow now http code).2.1 = flow) := by
  refine ⟨?_, ?_, ?_⟩
  · rintro ⟨row, rfl⟩ rfl
    simp [exchange_code_for_tokens, load_credentials]
  · intro hok
    cases db <;> cases flow <;> cases http <;>
      simp_all [exchange_code_for_tokens, load_credentials]
  · intro e herr
    cases db <;> cases flow <;> cases http <;>
      simp_all [exchange_code_for_tokens, load_credentials]

/-- Witness for C4 (amended), at concrete inputs: the `AuthorizationFailed`
clause with a configured row and no flow; the success clause with an active
flow and a successful exchange (flow cleared); the error clause with a
transport failure (flow preserved). -/
theorem c4_exchange_flow_state_witness :
    (exchange_code_for_tokens (some ⟨"cid", "sec", none, none, none, 0, 0⟩)
        none 0 (HttpResult.requestFailed ("net")) ("c")).2.2 =
      Except.error (PedaruErr.authorizationFailed ("No flow state")) ∧
    (exchange_code_for_tokens (some ⟨"cid", "sec", none, none, none, 0, 0⟩)
        (some ⟨"V", "S"⟩) 0
        (HttpResult.success ⟨"AT", some "RT", some 3600, "Bearer", none⟩)
        ("c")).2.1 = none ∧
    (exchange_code_for_tokens (some ⟨"cid", "sec", none, none, none, 0, 0⟩)
        (some ⟨"V", "S"⟩) 0 (HttpResult.requestFailed ("net")) ("c")).2.1 =
      some ⟨"V", "S"⟩ :=
  ⟨(c4_exchange_flow_state (some ⟨"cid", "sec", none, none, none, 0, 0⟩)
      none 0 (HttpResult.requestFailed ("net")) ("c")).1
      ⟨⟨"cid", "sec", none, none, none, 0, 0⟩, rfl⟩ rfl,
   (c4_exchange_flow_state (some ⟨"cid", "sec", none, none, none, 0, 0⟩)
      (some ⟨"V", "S"⟩) 0
      (HttpResult.success ⟨"AT", some "RT", some 3600, "Bearer", none⟩)
      ("c")).2.1 rfl,
   (c4_exchange_flow_state (some ⟨"cid", "sec", none, none, none, 0, 0⟩)
      (some ⟨"V", "S"⟩) 0 (HttpResult.requestFailed ("net")) ("c")).2.2
      (PedaruErr.httpRequestFailed ("net")) rfl⟩

/-! ## Helper lemmas on the listener loop body -/

/-- A request not targeting the callback path is skipped entirely: no
response, no state change, no break, no exchange. -/
theorem handleRequest_not_callback (st : ServerState) (now : Int)
    (http : HttpResult) (req : CallbackRequest)
    (h : strIsPrefixOf ("/callback") req.url = false) :
    handleRequest st now http req = ⟨st, none, false, false⟩ := by
  simp [handleRequest, h]

/-- A request targeting the callback path always ends the loop. -/
theorem handleRequest_callback_breaks (st : ServerState) (now : Int)
    (http : HttpResult) (req : CallbackRequest)
    (h : strIsPrefixOf ("/callback") req.url = true) :
    (handleRequest st now http req).breaksLoop = true := by
  unfold handleRequest
  rw [if_pos h]
  cases hq : callbackQuery req.url with
  | none => rfl
  | some q =>
    simp only
    cases hc : getParam (parseParams q) ("code") with
    | none => cases he : getParam (parseParams q) ("error") <;> rfl
    | some rawCode =>
      simp only
      by_cases hst :
          st.flow.map (fun s => s.state) = receivedStateOf (parseParams q)
      · rw [if_pos hst]
        cases hx : (exchange_code_for_tokens st.db st.flow now http
            (percentDecodeStr rawCode)).2.2 <;> rfl
      · rw [if_neg hst]

/-- If the loop body did not reach the exchange step, it changed nothing:
the whole mutable state is as before. -/
theorem handleRequest_no_exchange (st : ServerState) (now : Int)
    (http : HttpResult) (req : CallbackRequest)
    (h : (handleRequest st now http req).exchangeInvoked = false) :
    (handleRequest st now http req).state = st := by
  unfold handleRequest at h ⊢
  by_cases hs : strIsPrefixOf ("/callback") req.url
  · rw [if_pos hs] at h ⊢
    cases hq : callbackQuery req.url with
    | none => rfl
    | some q =>
      rw [hq] at h
      simp only at h ⊢
      cases hc : getParam (parseParams q) ("code") with
      | none =>
        rw [hc] at h
        cases he : getParam (parseParams q) ("error") <;> rfl
      | some rawCode =>
        rw [hc] at h
        simp only at h ⊢
        by_cases hst :
            st.flow.map (fun s => s.state) = receivedStateOf (parseParams q)
        · rw [if_pos hst] at h ⊢
          cases hx : (exchange_code_for_tokens st.db st.flow now http
              (percentDecodeStr rawCode)).2.2 <;> rw [hx] at h <;> simp at h
        · rw [if_neg hst] at h ⊢
  · rw [if_neg hs] at h ⊢

/-- If the loop body did not break, the request missed the callback path
and nothing at all happened. -/
theorem handleRequest_no_break (st : ServerState) (now : Int)
    (http : HttpResult) (req : CallbackRequest)
    (h : (handleRequest st now http req).breaksLoop = false) :
    handleRequest st now http req = ⟨st, none, false, false⟩ := by
  by_cases hs : strIsPrefixOf ("/callback") req.url
  · simp [handleRequest_callback_breaks st now http req hs] at h
  · exact handleRequest_not_callback st now http req (by simpa using hs)

/-! ## Claim C1 (corrected) -/

/-- Counterexample to C1 as stated: with NO active FlowState, a callback
carrying a `code` but no `state` parameter passes the comparison
(`None == None` on `Option<String>`) and the listener DOES invoke the
code-exchange step. The invoked exchange then fails (`AuthorizationFailed`,
no verifier), so a failure page is rendered and the state is unchanged,
but the claim "when no FlowState is active no callback may trigger
exchange" is false at this input. -/
theorem c1_counterexample :
    (handleRequest ⟨some ⟨"cid", "sec", none, none, none, 0, 0⟩, none⟩ 0
        (HttpResult.requestFailed ("net"))
        ⟨"/callback?code=abc"⟩).exchangeInvoked = true ∧
    (handleRequest ⟨some ⟨"cid", "sec", none, none, none, 0, 0⟩, none⟩ 0
        (HttpResult.requestFailed ("net"))
        ⟨"/callback?code=abc"⟩).response =
      some CallbackResponse.exchangeFailedPage := by
  exact ⟨rfl, rfl⟩

/-- C1 (amended): the listener invokes the exchange step only when the
percent-decoded `state` parameter, as an `Option`, equals the active
FlowState's `state`, as an `Option`. Hence: (1) whenever the decoded state
option differs from the active state option, no exchange happens; (2) a
stale callback carrying a previous flow's state, arriving after a new flow
replaced the FlowState, is rejected; (3) when no FlowState is active, no
callback carrying a `state` parameter can trigger exchange — but a
callback with a `code` and no `state` parameter does invoke the exchange
step (which then fails with `AuthorizationFailed`). -/
theorem c1_state_verification (st : ServerState) (now : Int)
    (http : HttpResult) (req : CallbackRequest) :
    (urlReceivedState req.url ≠ st.flow.map (fun s => s.state) →
      (handleRequest st now http req).exchangeInvoked = false) ∧
    (∀ fs, st.flow = some fs → urlReceivedState req.url ≠ some fs.state →
      (handleRequest st now http req).exchangeInvoked = false) ∧
    (st.flow = none → urlHasStateParam req.url = true →
      (handleRequest st now http req).exchangeInvoked = false) := by
  have main : urlReceivedState req.url ≠ st.flow.map (fun s => s.state) →
      (handleRequest st now http req).exchangeInvoked = false := by
    intro hm
    unfold handleRequest
    by_cases hs : strIsPrefixOf ("/callback") req.url
    · rw [if_pos hs]
      cases hq : callbackQuery req.url with
      | none => rfl
      | some q =>
        simp only
        cases hc : getParam (parseParams q) ("code") with
        | none => cases he : getParam (parseParams q) ("error") <;> rfl
        | some rawCode =>
          simp only
          have hurl : urlReceivedState req.url = receivedStateOf (parseParams q) := by
            simp [urlReceivedState, hq]
          rw [if_neg (fun heq => hm (hurl.trans heq.symm))]
    · rw [if_neg hs]
  refine ⟨main, ?_, ?_⟩
  · intro fs hf hne
    exact main (by rw [hf]; exact hne)
  · intro hf hsp
    apply main
    rw [hf]
    unfold urlHasStateParam at hsp
    cases hq : callbackQuery req.url with
    | none => rw [hq] at hsp; simp at hsp
    | some q =>
      rw [hq] at hsp
      simp only at hsp
      cases hg : getParam (parseParams q) ("state") with
      | none => rw [hg] at hsp; simp at hsp
      | some s => simp [urlReceivedState, hq, receivedStateOf, hg]

/-- Witness for C1 (amended): a stale callback carrying the old state "OLD"
against the new FlowState "S" is rejected (clauses 1 and 2 at that input),
and with no active flow a callback that does carry a `state` parameter is
rejected (clause 3 at its input). -/
theorem c1_state_verification_witness :
    (handleRequest ⟨some ⟨"cid", "sec", none, none, none, 0, 0⟩,
        some ⟨"V", "S"⟩⟩ 0 (HttpResult.requestFailed ("net"))
        ⟨"/callback?code=abc&state=OLD"⟩).exchangeInvoked = false ∧
    (handleRequest ⟨some ⟨"cid", "sec", none, none, none, 0, 0⟩, none⟩ 0
        (HttpResult.requestFailed ("net"))
        ⟨"/callback?code=abc&state=S"⟩).exchangeInvoked = false :=
  ⟨(c1_state_verification ⟨some ⟨"cid", "sec", none, none, none, 0, 0⟩,
      some ⟨"V", "S"⟩⟩ 0 (HttpResult.requestFailed ("net"))
      ⟨"/callback?code=abc&state=OLD"⟩).2.1 ⟨"V", "S"⟩ rfl (by decide),
   (c1_state_verification ⟨some ⟨"cid", "sec", none, none, none, 0, 0⟩,
      none⟩ 0 (HttpResult.requestFailed ("net"))
      ⟨"/callback?code=abc&state=S"⟩).2.2 rfl (by decide)⟩

/-! ## Claim C5 -/

/-- C5: the listener sends at most one response per run; it terminates at
the first request targeting the callback path, whatever that request
contains (processing `r :: rest` equals processing `[r]` alone); with no
requests (the 5-minute timeout elapsing) it exits silently leaving
everything unchanged; and the listener itself never clears the active
FlowState — if the exchange step was never invoked, the flow slot is
exactly as before. -/
theorem c5_single_shot (now : Int) (http : HttpResult) (st : ServerState)
    (reqs : List CallbackRequest) :
    (run_callback_server now http st reqs).2.1.length ≤ 1 ∧
    run_callback_server now http st [] = (st, [], 0) ∧
    (∀ r rs, strIsPrefixOf ("/callback") r.url = true →
      run_callback_server now http st (r :: rs) =
        run_callback_server now http st [r]) ∧
    ((run_callback_server now http st reqs).2.2 = 0 →
      (run_callback_server now http st reqs).1.flow = st.flow) := by
  have served : ∀ st : ServerState, ∀ reqs : List CallbackRequest,
      (run_callback_server now http st reqs).2.1.length ≤ 1 := by
    intro st reqs
    induction reqs generalizing st with
    | nil => simp [run_callback_server]
    | cons r rs ih =>
      simp only [run_callback_server]
      by_cases hb : (handleRequest st now http r).breaksLoop
      · rw [if_pos hb]
        cases (handleRequest st now http r).response <;> simp
      · rw [if_neg hb]
        exact ih _
  have flowpres : ∀ st : ServerState, ∀ reqs : List CallbackRequest,
      (run_callback_server now http st reqs).2.2 = 0 →
      (run_callback_server now http st reqs).1.flow = st.flow := by
    intro st reqs
    induction reqs generalizing st with
    | nil => intro _; rfl
    | cons r rs ih =>
      intro h0
      simp only [run_callback_server] at h0 ⊢
      by_cases hb : (handleRequest st now http r).breaksLoop
      · rw [if_pos hb] at h0 ⊢
        by_cases he : (handleRequest st now http r).exchangeInvoked
        · rw [if_pos he] at h0
          exact absurd h0 one_ne_zero
        · rw [handleRequest_no_exchange st now http r (by simpa using he)]
      · rw [if_neg hb] at h0 ⊢
        rw [handleRequest_no_break st now http r (by simpa using hb)] at h0 ⊢
        exact ih st h0
  refine ⟨served st reqs, rfl, ?_, flowpres st reqs⟩
  intro r rs hr
  have hb := handleRequest_callback_breaks st now http r hr
  simp only [run_callback_server]
  rw [if_pos hb, if_pos hb]

/-- Witness for C5: a run that receives a single stray request sends no
response and keeps the flow; processing a callback request followed by a
second request equals processing the callback request alone. -/
theorem c5_single_shot_witness :
    (run_callback_server 0 (HttpResult.requestFailed ("net")) ⟨none, none⟩
        [⟨"/a"⟩]).2.1.length ≤ 1 ∧
    run_callback_server 0 (HttpResult.requestFailed ("net")) ⟨none, none⟩ [] =
      (⟨none, none⟩, [], 0) ∧
    run_callback_server 0 (HttpResult.requestFailed ("net")) ⟨none, none⟩
        [⟨"/callback"⟩, ⟨"/b"⟩] =
      run_callback_server 0 (HttpResult.requestFailed ("net")) ⟨none, none⟩
        [⟨"/callback"⟩] ∧
    (run_callback_server 0 (HttpResult.requestFailed ("net")) ⟨none, none⟩
        [⟨"/a"⟩]).1.flow = (⟨none, none⟩ : ServerState).flow :=
  ⟨(c5_single_shot 0 (HttpResult.requestFailed ("net")) ⟨none, none⟩ [⟨"/a"⟩]).1,
   (c5_single_shot 0 (HttpResult.requestFailed ("net")) ⟨none, none⟩ [⟨"/a"⟩]).2.1,
   (c5_single_shot 0 (HttpResult.requestFailed ("net")) ⟨none, none⟩
      [⟨"/a"⟩]).2.2.1 ⟨"/callback"⟩ [⟨"/b"⟩] (by decide),
   (c5_single_shot 0 (HttpResult.requestFailed ("net")) ⟨none, none⟩
      [⟨"/a"⟩]).2.2.2 rfl⟩

end Pedaru
